import Mathlib

/-!
Verification development for the Celestia stellar-classification and JPL
ephemeris cores (src/celengine/stellarclass.cpp and the jpleph code inlined
in src/celengine/name.h).

Machine integers are modelled as Nat with explicit masking / reduction
mod 2^16 or 2^32 where the C++ performs an integral conversion; IEEE
doubles are modelled as exact rationals (ℚ).  Fallible operations return
Option.  C array indexing without a bounds check is modelled as
Option-valued lookup so that the out-of-bounds branch is visible.
-/

set_option maxRecDepth 4000
set_option maxHeartbeats 1600000

namespace Celestia

/-! ## Enumeration constants

The enum declarations live in stellarclass.h, which is not part of the
sources; the numeric values below are modelled from the spec (section 3
data model and section 4.2) together with the constraints the .cpp code
imposes: the renderer indexes "OBAFGKMRSNWW?LTYC" by the normal-star
spectral ordinal, the white-dwarf family is `Spectral_DA + k` for
`k < WDClassCount` with dense V2 packing via `specClass - 1`, and the
neutron-star family is `Spectral_Q + k` for `k < NeutronStarClassCount`.
-/

/-- Modelled from the spec: star type ordinals (3-bit field). -/
def NormalStar : Nat := 0

/-- Modelled from the spec: star type ordinal of white dwarfs. -/
def WhiteDwarf : Nat := 1

/-- Modelled from the spec: star type ordinal of neutron stars. -/
def NeutronStar : Nat := 2

/-- Modelled from the spec: star type ordinal of black holes. -/
def BlackHole : Nat := 3

/-- Modelled from the spec: spectral class ordinal of class O. -/
def Spectral_O : Nat := 0

/-- Modelled from the spec: spectral class ordinal of class B. -/
def Spectral_B : Nat := 1

/-- Modelled from the spec: spectral class ordinal of class A. -/
def Spectral_A : Nat := 2

/-- Modelled from the spec: spectral class ordinal of class F. -/
def Spectral_F : Nat := 3

/-- Modelled from the spec: spectral class ordinal of class G. -/
def Spectral_G : Nat := 4

/-- Modelled from the spec: spectral class ordinal of class K. -/
def Spectral_K : Nat := 5

/-- Modelled from the spec: spectral class ordinal of class M. -/
def Spectral_M : Nat := 6

/-- Modelled from the spec: spectral class ordinal of class R. -/
def Spectral_R : Nat := 7

/-- Modelled from the spec: spectral class ordinal of class S. -/
def Spectral_S : Nat := 8

/-- Modelled from the spec: spectral class ordinal of class N. -/
def Spectral_N : Nat := 9

/-- Modelled from the spec: spectral class ordinal of Wolf-Rayet WC. -/
def Spectral_WC : Nat := 10

/-- Modelled from the spec: spectral class ordinal of Wolf-Rayet WN. -/
def Spectral_WN : Nat := 11

/-- Modelled from the spec: the unknown spectral class, rendered as the
question mark at index 12 of the renderer's letter table. -/
def Spectral_Unknown : Nat := 12

/-- Modelled from the spec: spectral class ordinal of brown dwarf class L. -/
def Spectral_L : Nat := 13

/-- Modelled from the spec: spectral class ordinal of brown dwarf class T. -/
def Spectral_T : Nat := 14

/-- Modelled from the spec: spectral class ordinal of brown dwarf class Y.
V1 predates this value; classes after it shift by one on V1 pack. -/
def Spectral_Y : Nat := 15

/-- Modelled from the spec: spectral class ordinal of carbon class C,
which occupied the slot of Y before Y existed. -/
def Spectral_C : Nat := 16

/-- Modelled from the spec: first white-dwarf spectral ordinal; the
packed forms store `specClass - 1` so the family starts at field 0,
forcing `Spectral_DA = 17`. -/
def Spectral_DA : Nat := 17

/-- Modelled from the spec: white-dwarf spectral ordinal DB. -/
def Spectral_DB : Nat := 18

/-- Modelled from the spec: white-dwarf spectral ordinal DC. -/
def Spectral_DC : Nat := 19

/-- Modelled from the spec: white-dwarf spectral ordinal DO. -/
def Spectral_DO : Nat := 20

/-- Modelled from the spec: white-dwarf spectral ordinal DQ. -/
def Spectral_DQ : Nat := 21

/-- Modelled from the spec: white-dwarf spectral ordinal DZ. -/
def Spectral_DZ : Nat := 22

/-- Modelled from the spec: generic white dwarf D. -/
def Spectral_D : Nat := 23

/-- Modelled from the spec: white-dwarf spectral ordinal DX. -/
def Spectral_DX : Nat := 24

/-- Modelled from the spec: first neutron-star spectral ordinal Q. -/
def Spectral_Q : Nat := 25

/-- Modelled from the spec: neutron-star spectral ordinal QN. -/
def Spectral_QN : Nat := 26

/-- Modelled from the spec: neutron-star spectral ordinal QP. -/
def Spectral_QP : Nat := 27

/-- Modelled from the spec: neutron-star spectral ordinal QM. -/
def Spectral_QM : Nat := 28

/-- Modelled from the spec: Wolf-Rayet WO, added after the neutron-star
classes and outside the renderer's 17-letter table. -/
def Spectral_WO : Nat := 29

/-- Modelled from the spec: the sentinel subclass value (subclass is an
integer 0..9 or this sentinel). -/
def Subclass_Unknown : Nat := 10

/-- Modelled from the spec: luminosity class ordinal Ia-0. -/
def Lum_Ia0 : Nat := 0

/-- Modelled from the spec: luminosity class ordinal Ia. -/
def Lum_Ia : Nat := 1

/-- Modelled from the spec: luminosity class ordinal Ib. -/
def Lum_Ib : Nat := 2

/-- Modelled from the spec: luminosity class ordinal II. -/
def Lum_II : Nat := 3

/-- Modelled from the spec: luminosity class ordinal III. -/
def Lum_III : Nat := 4

/-- Modelled from the spec: luminosity class ordinal IV. -/
def Lum_IV : Nat := 5

/-- Modelled from the spec: luminosity class ordinal V. -/
def Lum_V : Nat := 6

/-- Modelled from the spec: luminosity class ordinal VI. -/
def Lum_VI : Nat := 7

/-- Modelled from the spec: the unknown luminosity class. -/
def Lum_Unknown : Nat := 8

/-- Modelled from the spec: number of white-dwarf spectral classes. -/
def WDClassCount : Nat := 8

/-- Modelled from the spec: number of neutron-star spectral classes. -/
def NeutronStarClassCount : Nat := 4

/-- The StellarClass value type: a 4-tuple of enum ordinals, mirroring the
flat record `(starType, specClass, subclass, lumClass)` of the source.
The fields are Nat because the C++ stores enums / unsigned ints and the
pack and unpack code does ordinary integer arithmetic on them. -/
structure StellarClass where
  starType : Nat
  specClass : Nat
  subclass : Nat
  lumClass : Nat
deriving DecidableEq, Repr

/-- StellarClass::packV1 (stellarclass.cpp lines 118-133).  StarDB version
0x0100 does not support Spectral_Y: Y is stored as Unknown and classes
after Y shift down by one.  Every operand is converted to uint16_t before
the shifts, the bitwise ORs happen at int width, and the result is
converted back to uint16_t, which the trailing `% 65536` models. -/
def packV1 (c : StellarClass) : Nat :=
  let sc : Nat :=
    if c.specClass = Spectral_Y then Spectral_Unknown
    else if Spectral_Y < c.specClass then (c.specClass + 65535) % 65536
    else c.specClass % 65536
  (((c.starType % 65536) <<< 12) |||
   ((sc &&& 0xf) <<< 8) |||
   ((c.subclass % 65536) <<< 4) |||
   (c.lumClass % 65536)) % 65536

/-- StellarClass::packV2 (stellarclass.cpp lines 136-145).  For a white
dwarf the stored spectral field is `specClass - 1` (uint16_t wraparound
modelled by `+ 65535 % 65536`).  The star type is shifted left by 18 —
exactly as in the source — so those bits fall outside the uint16_t
result, which the trailing `% 65536` reproduces. -/
def packV2 (c : StellarClass) : Nat :=
  let sc : Nat :=
    if c.starType = WhiteDwarf then (c.specClass + 65535) % 65536
    else c.specClass % 65536
  (((c.starType % 65536) <<< 18) |||
   ((sc &&& 0x1f) <<< 8) |||
   (((c.subclass % 65536) &&& 0xf) <<< 4) |||
   ((c.lumClass % 65536) &&& 0xf)) % 65536

/-- StellarClass::unpackV1 (stellarclass.cpp lines 148-188).  The C++
mutates the receiver and returns a bool; failure is modelled as none.
`st` is the uint16_t argument. -/
def unpackV1 (st : Nat) : Option StellarClass :=
  let starType := st >>> 13
  if starType = NormalStar then
    let sc0 := (st >>> 8) &&& 0xf
    let sc := if sc0 = Spectral_Y then Spectral_C else sc0
    some ⟨starType, sc, (st >>> 4) &&& 0xf, st &&& 0xf⟩
  else if starType = WhiteDwarf then
    if WDClassCount ≤ (st >>> 8) &&& 0xf then none
    else some ⟨starType, ((st >>> 8) &&& 0xf) + Spectral_DA, (st >>> 4) &&& 0xf, Lum_Unknown⟩
  else if starType = NeutronStar then
    if NeutronStarClassCount ≤ (st >>> 4) &&& 0xf then none
    else some ⟨starType, ((st >>> 4) &&& 0xf) + Spectral_Q, (st >>> 4) &&& 0xf, Lum_Unknown⟩
  else if starType = BlackHole then
    some ⟨starType, Spectral_Unknown, Subclass_Unknown, Lum_Unknown⟩
  else none

/-- StellarClass::unpackV2 (stellarclass.cpp lines 191-227). -/
def unpackV2 (st : Nat) : Option StellarClass :=
  let starType := st >>> 13
  if starType = NormalStar then
    some ⟨starType, (st >>> 8) &&& 0x1f, (st >>> 4) &&& 0xf, st &&& 0xf⟩
  else if starType = WhiteDwarf then
    if WDClassCount ≤ (st >>> 8) &&& 0xf then none
    else some ⟨starType, ((st >>> 8) &&& 0xf) + Spectral_DA, (st >>> 4) &&& 0xf, Lum_Unknown⟩
  else if starType = NeutronStar then
    if NeutronStarClassCount ≤ (st >>> 4) &&& 0xf then none
    else some ⟨starType, ((st >>> 4) &&& 0xf) + Spectral_Q, (st >>> 4) &&& 0xf, Lum_Unknown⟩
  else if starType = BlackHole then
    some ⟨starType, Spectral_Unknown, Subclass_Unknown, Lum_Unknown⟩
  else none

/-! ## Renderer (StellarClass::str) -/

/-- Unchecked C array indexing, modelled totally: the out-of-bounds branch
returns none. -/
def charAt (l : List Char) (n : Nat) : Option Char :=
  l.get? n

/-- The letter table "WD" indexed in the white-dwarf branch of str().  A C
string literal is an array that ends in a NUL terminator byte, which is
part of the object and readable in bounds, so the terminator is kept. -/
def wdChars : List Char := ['W', 'D', Char.ofNat 0]

/-- The letter table "Q" indexed in the neutron-star branch of str(),
with its NUL terminator. -/
def qChars : List Char := ['Q', Char.ofNat 0]

/-- The normal-star letter table "OBAFGKMRSNWW?LTYC" of str() (17 letters
plus the NUL terminator). -/
def normalChars : List Char :=
  ['O', 'B', 'A', 'F', 'G', 'K', 'M', 'R', 'S', 'N', 'W', 'W', '?', 'L', 'T', 'Y', 'C',
   Char.ofNat 0]

/-- The digit table "0123456789" indexed by the subclass in str(): an
11-byte array, ten digits plus the NUL terminator. -/
def digitChars : List Char :=
  ['0', '1', '2', '3', '4', '5', '6', '7', '8', '9', Char.ofNat 0]

/-- The luminosity suffix table of str() (the inner switch, default ""). -/
def lumSuffix (lum : Nat) : List Char :=
  if lum = Lum_Ia0 then [' ', 'I', '-', 'a', '0']
  else if lum = Lum_Ia then [' ', 'I', '-', 'a']
  else if lum = Lum_Ib then [' ', 'I', '-', 'b']
  else if lum = Lum_II then [' ', 'I', 'I']
  else if lum = Lum_III then [' ', 'I', 'I', 'I']
  else if lum = Lum_IV then [' ', 'I', 'V']
  else if lum = Lum_V then [' ', 'V']
  else if lum = Lum_VI then [' ', 'V', 'I']
  else []

/-- StellarClass::str (stellarclass.cpp lines 65-115).  The source switch
has no break between the WhiteDwarf, NeutronStar and BlackHole cases: a
white dwarf stores s0 and s1 (via unchecked indexing), control falls into
the neutron-star case which stores them again, and then into the
black-hole case which returns "X" — so the stored characters are
discarded.  The unchecked lookups are kept, so inputs that index out of
bounds give none. -/
def str (c : StellarClass) : Option (List Char) :=
  if c.starType = WhiteDwarf then
    match charAt wdChars c.specClass, charAt digitChars c.subclass with
    | some _, some _ =>
      match charAt qChars c.specClass, charAt digitChars c.subclass with
      | some _, some _ => some ['X']
      | _, _ => none
    | _, _ => none
  else if c.starType = NeutronStar then
    match charAt qChars c.specClass, charAt digitChars c.subclass with
    | some _, some _ => some ['X']
    | _, _ => none
  else if c.starType = BlackHole then
    some ['X']
  else if c.starType = NormalStar then
    match charAt normalChars c.specClass, charAt digitChars c.subclass with
    | some s0, some s1 => some (s0 :: s1 :: lumSuffix c.lumClass)
    | _, _ => none
  else
    some ['?']

/-! ## Parser (StellarClass::parse)

The source is a character-at-a-time state machine (stellarclass.cpp lines
249-694): each loop iteration reads `st[i]` (or a synthetic NUL past the
end), switches on the state, optionally advances `i`, and repeats until
the End state.  `step` is one iteration; `parseRun` is the loop with a
fuel bound that is proved sufficient below.
-/

/-- The parser states (the ParseState enum).  NormalStarState is declared
by the source but never entered; the switch default (assert plus End)
covers it. -/
inductive ParseState where
  | Begin
  | End
  | NormalStar
  | WolfRayetType
  | NormalStarClass
  | NormalStarSubclass
  | NormalStarSubclassDecimal
  | NormalStarSubclassFinal
  | LumClassBegin
  | LumClassI
  | LumClassII
  | LumClassV
  | LumClassIdash
  | LumClassIa
  | WDType
  | WDExtendedType
  | WDSubclass
  | NeutronStarType
  | NeutronStarExtendedType
  | NeutronStarSubclass
  | SubdwarfPrefix
deriving DecidableEq, Repr

/-- isdigit on the ASCII-range characters the parser meets. -/
def isDigitChar (c : Char) : Bool :=
  48 ≤ c.toNat && c.toNat ≤ 57

/-- The digit value `(unsigned int) c - (unsigned int) '0'`. -/
def digitVal (c : Char) : Nat :=
  c.toNat - 48

/-- One iteration of the parse loop: from a state, the current character
and the accumulated fields, produce the next state, whether `i` is
incremented, and the updated fields.  Transcribed case by case from the
switch in stellarclass.cpp lines 293-690. -/
def step (s : ParseState) (c : Char) (acc : StellarClass) :
    ParseState × Bool × StellarClass :=
  match s with
  | ParseState.Begin =>
    if c = 'Q' then
      (ParseState.NeutronStarType, false,
        { acc with starType := NeutronStar, specClass := Spectral_Q })
    else if c = 'X' then
      (ParseState.End, false, { acc with starType := BlackHole })
    else if c = 'D' then
      (ParseState.WDType, true,
        { acc with starType := WhiteDwarf, specClass := Spectral_D })
    else if c = 's' then
      (ParseState.SubdwarfPrefix, true, acc)
    else if c = '?' then
      (ParseState.End, false, acc)
    else
      (ParseState.NormalStarClass, false, acc)
  | ParseState.WolfRayetType =>
    if c = 'C' then
      (ParseState.NormalStarSubclass, true, { acc with specClass := Spectral_WC })
    else if c = 'N' then
      (ParseState.NormalStarSubclass, true, { acc with specClass := Spectral_WN })
    else if c = 'O' then
      (ParseState.NormalStarSubclass, true, { acc with specClass := Spectral_WO })
    else
      (ParseState.NormalStarSubclass, false, { acc with specClass := Spectral_WC })
  | ParseState.SubdwarfPrefix =>
    if c = 'd' then
      (ParseState.NormalStarClass, true, { acc with lumClass := Lum_VI })
    else
      (ParseState.End, false, acc)
  | ParseState.NormalStarClass =>
    if c = 'W' then (ParseState.WolfRayetType, true, acc)
    else if c = 'O' then (ParseState.NormalStarSubclass, true, { acc with specClass := Spectral_O })
    else if c = 'B' then (ParseState.NormalStarSubclass, true, { acc with specClass := Spectral_B })
    else if c = 'A' then (ParseState.NormalStarSubclass, true, { acc with specClass := Spectral_A })
    else if c = 'F' then (ParseState.NormalStarSubclass, true, { acc with specClass := Spectral_F })
    else if c = 'G' then (ParseState.NormalStarSubclass, true, { acc with specClass := Spectral_G })
    else if c = 'K' then (ParseState.NormalStarSubclass, true, { acc with specClass := Spectral_K })
    else if c = 'M' then (ParseState.NormalStarSubclass, true, { acc with specClass := Spectral_M })
    else if c = 'R' then (ParseState.NormalStarSubclass, true, { acc with specClass := Spectral_R })
    else if c = 'S' then (ParseState.NormalStarSubclass, true, { acc with specClass := Spectral_S })
    else if c = 'N' then (ParseState.NormalStarSubclass, true, { acc with specClass := Spectral_N })
    else if c = 'L' then (ParseState.NormalStarSubclass, true, { acc with specClass := Spectral_L })
    else if c = 'T' then (ParseState.NormalStarSubclass, true, { acc with specClass := Spectral_T })
    else if c = 'Y' then (ParseState.NormalStarSubclass, true, { acc with specClass := Spectral_Y })
    else if c = 'C' then (ParseState.NormalStarSubclass, true, { acc with specClass := Spectral_C })
    else (ParseState.End, true, acc)
  | ParseState.NormalStarSubclass =>
    if isDigitChar c then
      (ParseState.NormalStarSubclassDecimal, true, { acc with subclass := digitVal c })
    else
      (ParseState.LumClassBegin, false, acc)
  | ParseState.NormalStarSubclassDecimal =>
    if c = '.' then (ParseState.NormalStarSubclassFinal, true, acc)
    else (ParseState.LumClassBegin, false, acc)
  | ParseState.NormalStarSubclassFinal =>
    if isDigitChar c then (ParseState.LumClassBegin, true, acc)
    else (ParseState.End, true, acc)
  | ParseState.LumClassBegin =>
    if c = 'I' then (ParseState.LumClassI, true, acc)
    else if c = 'V' then (ParseState.LumClassV, true, acc)
    else (ParseState.End, true, acc)
  | ParseState.LumClassI =>
    if c = 'I' then (ParseState.LumClassII, true, acc)
    else if c = 'V' then (ParseState.End, true, { acc with lumClass := Lum_IV })
    else if c = 'a' then (ParseState.LumClassIa, true, acc)
    else if c = 'b' then (ParseState.End, true, { acc with lumClass := Lum_Ib })
    else if c = '-' then (ParseState.LumClassIdash, true, acc)
    else (ParseState.End, true, { acc with lumClass := Lum_Ib })
  | ParseState.LumClassII =>
    if c = 'I' then (ParseState.End, false, { acc with lumClass := Lum_III })
    else (ParseState.End, false, { acc with lumClass := Lum_II })
  | ParseState.LumClassIdash =>
    if c = 'a' then (ParseState.LumClassIa, false, acc)
    else if c = 'b' then (ParseState.End, false, { acc with lumClass := Lum_Ib })
    else (ParseState.End, false, { acc with lumClass := Lum_Ib })
  | ParseState.LumClassIa =>
    if c = '0' then (ParseState.End, false, { acc with lumClass := Lum_Ia0 })
    else (ParseState.End, false, { acc with lumClass := Lum_Ia })
  | ParseState.LumClassV =>
    if c = 'I' then (ParseState.End, false, { acc with lumClass := Lum_VI })
    else (ParseState.End, false, { acc with lumClass := Lum_V })
  | ParseState.WDType =>
    if c = 'A' then (ParseState.WDExtendedType, true, { acc with specClass := Spectral_DA })
    else if c = 'B' then (ParseState.WDExtendedType, true, { acc with specClass := Spectral_DB })
    else if c = 'C' then (ParseState.WDExtendedType, true, { acc with specClass := Spectral_DC })
    else if c = 'O' then (ParseState.WDExtendedType, true, { acc with specClass := Spectral_DO })
    else if c = 'Q' then (ParseState.WDExtendedType, true, { acc with specClass := Spectral_DQ })
    else if c = 'X' then (ParseState.WDExtendedType, true, { acc with specClass := Spectral_DX })
    else if c = 'Z' then (ParseState.WDExtendedType, true, { acc with specClass := Spectral_DZ })
    else (ParseState.WDExtendedType, false, { acc with specClass := Spectral_D })
  | ParseState.WDExtendedType =>
    if c = 'A' || c = 'B' || c = 'C' || c = 'O' || c = 'Q' || c = 'Z' ||
       c = 'X' || c = 'V' || c = 'P' || c = 'H' || c = 'E' then
      (ParseState.WDExtendedType, true, acc)
    else
      (ParseState.WDSubclass, false, acc)
  | ParseState.WDSubclass =>
    if isDigitChar c then (ParseState.End, true, { acc with subclass := digitVal c })
    else (ParseState.End, false, acc)
  | ParseState.NeutronStarType =>
    if c = 'N' then (ParseState.NeutronStarExtendedType, true, { acc with specClass := Spectral_QN })
    else if c = 'P' then (ParseState.NeutronStarExtendedType, true, { acc with specClass := Spectral_QP })
    else if c = 'M' then (ParseState.NeutronStarExtendedType, true, { acc with specClass := Spectral_QM })
    else (ParseState.NeutronStarExtendedType, false, { acc with specClass := Spectral_Q })
  | ParseState.NeutronStarExtendedType =>
    if c = 'P' || c = 'M' || c = 'N' then (ParseState.NeutronStarExtendedType, true, acc)
    else (ParseState.NeutronStarSubclass, false, acc)
  | ParseState.NeutronStarSubclass =>
    if isDigitChar c then (ParseState.End, true, { acc with subclass := digitVal c })
    else (ParseState.End, false, acc)
  | ParseState.NormalStar =>
    (ParseState.End, false, acc)
  | ParseState.End =>
    (ParseState.End, false, acc)

/-- A rank on parser states: every transition that does not consume a
character strictly lowers the rank, which bounds the number of loop
iterations between two consumptions. -/
def rank : ParseState → Nat
  | ParseState.End => 0
  | ParseState.Begin => 5
  | ParseState.NormalStar => 1
  | ParseState.WolfRayetType => 3
  | ParseState.NormalStarClass => 1
  | ParseState.NormalStarSubclass => 2
  | ParseState.NormalStarSubclassDecimal => 2
  | ParseState.NormalStarSubclassFinal => 1
  | ParseState.LumClassBegin => 1
  | ParseState.LumClassI => 1
  | ParseState.LumClassII => 1
  | ParseState.LumClassV => 1
  | ParseState.LumClassIdash => 2
  | ParseState.LumClassIa => 1
  | ParseState.WDType => 3
  | ParseState.WDExtendedType => 2
  | ParseState.WDSubclass => 1
  | ParseState.NeutronStarType => 3
  | ParseState.NeutronStarExtendedType => 2
  | ParseState.NeutronStarSubclass => 1
  | ParseState.SubdwarfPrefix => 1

/-- The parse loop, with explicit fuel.  Each iteration reads
`st[i]` — or NUL once `i` is past the end — and applies `step`.  none
means the fuel ran out before the End state; `parse` supplies fuel
proved sufficient for every input. -/
def parseRun (l : List Char) : Nat → ParseState → Nat → StellarClass → Option StellarClass
  | 0, s, _, acc => if s = ParseState.End then some acc else none
  | fuel + 1, s, i, acc =>
    if s = ParseState.End then some acc
    else
      let c := l.getD i (Char.ofNat 0)
      let r := step s c acc
      parseRun l fuel r.1 (if r.2.1 then i + 1 else i) r.2.2

/-- The initial accumulator of StellarClass::parse (lines 280-283). -/
def parseInit : StellarClass :=
  ⟨NormalStar, Spectral_Unknown, Subclass_Unknown, Lum_Unknown⟩

/-- Fuel that always suffices (proved below): the loop measure at the
start state. -/
def parseFuel (l : List Char) : Nat :=
  (l.length + 2) * 6 + 6

/-- StellarClass::parse (stellarclass.cpp lines 275-694) on a character
list. -/
def parse (l : List Char) : Option StellarClass :=
  parseRun l (parseFuel l) ParseState.Begin 0 parseInit

/-- The loop measure: remaining readable characters weighted by the
maximal rank, plus the current rank. -/
def parseMeasure (l : List Char) (s : ParseState) (i : Nat) : Nat :=
  (l.length + 2 - i) * 6 + rank s

/-! ## JPL ephemeris (the jpleph code inlined in name.h)

IEEE doubles are modelled as exact rationals; the C double-to-int casts
are modelled by truncation toward zero.  The byte-level stream plumbing
(labels, constant names, padding skips and byte swapping of individual
fields) lives in celutil and in istream, outside the sources; the loader
model therefore receives the header with its fields already decoded in
host order, plus the list of doubles that make up the coefficient
records.  The endianness decision itself operates on the raw uint32
deNum and is modelled exactly.
-/

/-- A 3-vector of exact reals (Eigen::Vector3d in the source). -/
structure Vec3 where
  x : ℚ
  y : ℚ
  z : ℚ
deriving DecidableEq, Repr

/-- Componentwise sum. -/
def Vec3.add (a b : Vec3) : Vec3 := ⟨a.x + b.x, a.y + b.y, a.z + b.z⟩

/-- Componentwise difference. -/
def Vec3.sub (a b : Vec3) : Vec3 := ⟨a.x - b.x, a.y - b.y, a.z - b.z⟩

/-- Scalar multiple. -/
def Vec3.smul (k : ℚ) (a : Vec3) : Vec3 := ⟨k * a.x, k * a.y, k * a.z⟩

/-- Per-body coefficient descriptor (struct JPLECoeff). -/
structure JPLECoeff where
  offset : Nat
  nCoeffs : Nat
  nGranules : Nat
deriving DecidableEq, Repr

/-- One coefficient record (struct JPLEphRecord): its time span and the
`recordSize - 2` coefficient doubles. -/
structure JPLEphRecord where
  t0 : ℚ
  t1 : ℚ
  coeffs : List ℚ
deriving DecidableEq, Repr

/-- Modelled from the spec: the JPLEphemItem enumeration from the missing
jpleph.h.  Mercury through Sun and then Nutation are the NItems = 12
bodies with stored coefficients (Nutation last, 2 components); SSB and
Earth are virtual; Libration is covered by the separate libration
descriptor. -/
inductive JPLEphemItem where
  | Mercury
  | Venus
  | EarthMoonBary
  | Mars
  | Jupiter
  | Saturn
  | Uranus
  | Neptune
  | Pluto
  | Moon
  | Sun
  | Nutation
  | Libration
  | SSB
  | Earth
deriving DecidableEq, Repr

/-- Modelled from the spec: the coefficient-table index of each item, in
the enumeration order of the data model (Libration sits just past the
stored items; SSB and Earth never reach the table). -/
def JPLEphemItem.index : JPLEphemItem → Nat
  | JPLEphemItem.Mercury => 0
  | JPLEphemItem.Venus => 1
  | JPLEphemItem.EarthMoonBary => 2
  | JPLEphemItem.Mars => 3
  | JPLEphemItem.Jupiter => 4
  | JPLEphemItem.Saturn => 5
  | JPLEphemItem.Uranus => 6
  | JPLEphemItem.Neptune => 7
  | JPLEphemItem.Pluto => 8
  | JPLEphemItem.Moon => 9
  | JPLEphemItem.Sun => 10
  | JPLEphemItem.Nutation => 11
  | JPLEphemItem.Libration => 12
  | JPLEphemItem.SSB => 13
  | JPLEphemItem.Earth => 14

/-- Bodies whose coefficients are stored in the per-record table (the
claims about clamping quantify over these). -/
def JPLEphemItem.isStored : JPLEphemItem → Bool
  | JPLEphemItem.Libration => false
  | JPLEphemItem.SSB => false
  | JPLEphemItem.Earth => false
  | _ => true

/-- The number of stored items, JPLEph_NItems. -/
def NItems : Nat := 12

/-- The loaded ephemeris state (class JPLEphemeris). -/
structure JPLEphemeris where
  DENum : Nat
  startDate : ℚ
  endDate : ℚ
  daysPerInterval : ℚ
  au : ℚ
  earthMoonMassRatio : ℚ
  coeffInfo : Fin 12 → JPLECoeff
  librationCoeffInfo : JPLECoeff
  recordSize : Nat
  records : List JPLEphRecord
  swapBytes : Bool
deriving DecidableEq

/-- Truncation toward zero, the C conversion from double to a signed
integer type. -/
def ratTrunc (q : ℚ) : Int :=
  if q < 0 then -Int.floor (-q) else Int.floor q

/-- The C conversion from a nonnegative double to an unsigned integer
(negative values are undefined behaviour in the source; the model takes
them to 0). -/
def ratToUInt (q : ℚ) : Nat :=
  (ratTrunc q).toNat

/-- Read of coeffInfo[i]: the C++ indexes the fixed array without a
check, so an out-of-range body (a programming error per the spec) is
modelled by a zero descriptor. -/
def cInfoAt (eph : JPLEphemeris) (i : Nat) : JPLECoeff :=
  if h : i < 12 then eph.coeffInfo ⟨i, h⟩ else ⟨0, 0, 0⟩

/-- Pointer read `coeffs[k]` relative to a record's coefficient array; a
negative or too-large index is out of bounds in the source (undefined
behaviour) and is modelled by 0. -/
def coeffD (l : List ℚ) (k : Int) : ℚ :=
  if k < 0 then 0 else l.getD k.toNat 0

/-- Chebyshev polynomials of the first kind by the recurrence the source
uses: cc[0] = 1, cc[1] = u, cc[j] = 2 u cc[j-1] - cc[j-2]. -/
def chebT : Nat → ℚ → ℚ
  | 0, _ => 1
  | 1, u => u
  | n + 2, u => 2 * u * chebT (n + 1) u - chebT n u

/-- One component of the interpolation: the source initializes
`sum = coeffs[base] + coeffs[base+1] * u` unconditionally and then adds
`coeffs[base+j] * cc[j]` for `j` in `[2, n)`. -/
def chebSum (l : List ℚ) (base : Int) (n : Nat) (u : ℚ) : ℚ :=
  ((List.range n).drop 2).foldl
    (fun (acc : ℚ) (j : Nat) => acc + coeffD l (base + (j : Int)) * chebT j u)
    (coeffD l base + coeffD l (base + 1) * u)

/-- The three independent series: component i uses the contiguous n
doubles starting at `base + i * n`. -/
def chebPos (l : List ℚ) (base : Int) (n : Nat) (u : ℚ) : Vec3 :=
  ⟨chebSum l base n u,
   chebSum l (base + n) n u,
   chebSum l (base + 2 * n) n u⟩

/-- Clamp tjd to [startDate, endDate] (name.h lines 163-167). -/
def clampTime (eph : JPLEphemeris) (tjd : ℚ) : ℚ :=
  if tjd < eph.startDate then eph.startDate
  else if eph.endDate < tjd then eph.endDate
  else tjd

/-- The record number selected for an already-clamped time: the unsigned
truncation of `(tjd - startDate) / daysPerInterval`, forced below
`records.size()` (name.h lines 169-173). -/
def recNoOf (eph : JPLEphemeris) (ct : ℚ) : Nat :=
  let r := ratToUInt ((ct - eph.startDate) / eph.daysPerInterval)
  if eph.records.length ≤ r then eph.records.length - 1 else r

/-- The record number a query at raw time tjd selects (the clamp feeds
the selection). -/
def recNoSel (eph : JPLEphemeris) (tjd : ℚ) : Nat :=
  recNoOf eph (clampTime eph tjd)

/-- The sentinel `(unsigned int) -1` that marks a single-granule span. -/
def granuleSentinel : Nat := 4294967295

/-- Body of the position computation for a stored body at an
already-clamped time (name.h lines 169-217). -/
def evalAt (eph : JPLEphemeris) (idx : Nat) (ct : ℚ) : Vec3 :=
  let recNo := recNoOf eph ct
  let rec0 := eph.records.getD recNo ⟨0, 0, []⟩
  let info := cInfoAt eph idx
  if info.nGranules = granuleSentinel then
    let u := 2 * (ct - rec0.t0) / eph.daysPerInterval - 1
    chebPos rec0.coeffs (info.offset : Int) info.nCoeffs u
  else
    let daysPerGranule := eph.daysPerInterval / (info.nGranules : ℚ)
    let granule : Int := ratTrunc ((ct - rec0.t0) / daysPerGranule)
    let granuleStartDate := rec0.t0 + daysPerGranule * (granule : ℚ)
    let u := 2 * (ct - granuleStartDate) / daysPerGranule - 1
    chebPos rec0.coeffs ((info.offset : Int) + granule * (info.nCoeffs : Int) * 3)
      info.nCoeffs u

/-- Position of a stored body: clamp the time, then interpolate. -/
def positionStored (eph : JPLEphemeris) (idx : Nat) (tjd : ℚ) : Vec3 :=
  evalAt eph idx (clampTime eph tjd)

/-- JPLEphemeris::getPlanetPosition (name.h lines 143-218).  SSB is the
origin; Earth is derived from the Earth-Moon barycenter and the
geocentric Moon; every other body is interpolated from its stored
coefficients at the clamped time. -/
def getPlanetPosition (eph : JPLEphemeris) (planet : JPLEphemItem) (tjd : ℚ) : Vec3 :=
  match planet with
  | JPLEphemItem.SSB => ⟨0, 0, 0⟩
  | JPLEphemItem.Earth =>
    let embPos := positionStored eph JPLEphemItem.EarthMoonBary.index tjd
    let moonPos := positionStored eph JPLEphemItem.Moon.index tjd
    Vec3.sub embPos (Vec3.smul (1 / (eph.earthMoonMassRatio + 1)) moonPos)
  | p => positionStored eph p.index tjd

/-! ## Loader -/

/-- bswap_32: reverse the four bytes of a uint32. -/
def bswap32 (n : Nat) : Nat :=
  (n % 256) * 16777216 + (n / 256 % 256) * 65536 +
  (n / 65536 % 256) * 256 + (n / 16777216 % 256)

/-- The endianness discrimination of JPLEphemeris::load (name.h lines
267-297), on the deNum header field as read with host byte order.  The
result carries the swap flag and the effective deNum; none is the
unrecognized-header failure (load returns no ephemeris). -/
def detectByteOrder (deNum : Nat) : Option (Bool × Nat) :=
  let deNum2 := bswap32 deNum
  if deNum = 100 then some (false, deNum)
  else if deNum2 = 100 then some (true, deNum2)
  else if 32768 < deNum ∧ 200 ≤ deNum2 then some (true, deNum2)
  else if deNum ≤ 32768 ∧ 200 ≤ deNum then some (false, deNum)
  else none

/-- Follows the words of the spec (section 4.5) and of claim C6, for
comparison with the implementation: rule 1, deNum = 100 gives INPOP
without swap; rule 2, byte-swapped deNum = 100 gives INPOP with swap
(deNum becomes the swapped value); rule 3, deNum above 2^15 with
byte-swapped deNum at least 200 gives DE with swap; rule 4, deNum at
most 2^15 and at least 200 gives DE without swap; rule 5, anything else
is an InvalidFormatError, so no ephemeris results. -/
def detectByteOrderSpec (deNum : Nat) : Option (Bool × Nat) :=
  if deNum = 100 then some (false, deNum)
  else if bswap32 deNum = 100 then some (true, bswap32 deNum)
  else if 2 ^ 15 < deNum ∧ 200 ≤ bswap32 deNum then some (true, bswap32 deNum)
  else if deNum ≤ 2 ^ 15 ∧ 200 ≤ deNum then some (false, deNum)
  else none

/-- Modelled from the spec: the fixed file header (struct JPLEFileHeader)
with its fields already decoded in host order.  The three 84-byte labels
and the 400 constant names are not used by the loader logic and are
omitted; inpopRecordSize is the u32 record size an INPOP file stores
after the header. -/
structure JPLEFileHeader where
  startDate : ℚ
  endDate : ℚ
  daysPerInterval : ℚ
  nConstants : Nat
  au : ℚ
  earthMoonMassRatio : ℚ
  coeffInfo : Fin 12 → JPLECoeff
  deNum : Nat
  librationCoeffInfo : JPLECoeff
  inpopRecordSize : Nat
deriving DecidableEq

/-- Reading of the n coefficient records of recordSize doubles each from
the remaining stream: t0, t1, then recordSize - 2 coefficients; a
truncated stream makes `in.good()` fail and the load abort (none). -/
def readRecords (recordSize : Nat) : Nat → List ℚ → Option (List JPLEphRecord)
  | 0, _ => some []
  | n + 1, s =>
    if s.length < recordSize then none
    else
      match readRecords recordSize n (s.drop recordSize) with
      | none => none
      | some rest =>
        some (⟨s.getD 0 0, s.getD 1 0, (s.drop 2).take (recordSize - 2)⟩ :: rest)

/-- JPLEphemeris::load (name.h lines 260-373).  The stream argument holds
the doubles of the coefficient records (everything after the header, the
padding and the skipped constants-value record).  Each body's offset is
stored 1-based over the whole record; the loader subtracts 3 (with
uint32 wraparound) to index the array that excludes t0 and t1.  The
record size is the component-weighted sum over the stored bodies —
2 components for the final nutation item, 3 otherwise — plus librations
and the two leading times; an INPOP file instead stores the record size
explicitly.  No field of any coefficient descriptor is validated. -/
def load (fh : JPLEFileHeader) (stream : List ℚ) : Option JPLEphemeris :=
  match detectByteOrder fh.deNum with
  | none => none
  | some (swap, deNum) =>
    let cInfo : Fin 12 → JPLECoeff := fun i =>
      ⟨((fh.coeffInfo i).offset + 4294967293) % 4294967296,
       (fh.coeffInfo i).nCoeffs, (fh.coeffInfo i).nGranules⟩
    let recSizeDE :=
      (List.finRange 12).foldl
        (fun acc i =>
          acc + (cInfo i).nCoeffs * (cInfo i).nGranules *
            (if (i : Nat) = NItems - 1 then 2 else 3)) 0
      + fh.librationCoeffInfo.nCoeffs * fh.librationCoeffInfo.nGranules * 3
      + 2
    let recordSize := if deNum = 100 then fh.inpopRecordSize else recSizeDE
    let nRecords := ratToUInt ((fh.endDate - fh.startDate) / fh.daysPerInterval)
    match readRecords recordSize nRecords stream with
    | none => none
    | some recs =>
      some { DENum := deNum
             startDate := fh.startDate
             endDate := fh.endDate
             daysPerInterval := fh.daysPerInterval
             au := fh.au
             earthMoonMassRatio := fh.earthMoonMassRatio
             coeffInfo := cInfo
             librationCoeffInfo := fh.librationCoeffInfo
             recordSize := recordSize
             records := recs
             swapBytes := swap }

/-! ## Concrete instances used by the witnesses and counterexamples -/

/-- A representable white dwarf: class DA, subclass 0, luminosity
unknown. -/
def wdDA0 : StellarClass := ⟨WhiteDwarf, Spectral_DA, 0, Lum_Unknown⟩

/-- A white dwarf of class DA, subclass 5. -/
def wdDA5 : StellarClass := ⟨WhiteDwarf, Spectral_DA, 5, Lum_Unknown⟩

/-- A neutron star of class Q, subclass 5. -/
def nsQ5 : StellarClass := ⟨NeutronStar, Spectral_Q, 5, Lum_Unknown⟩

/-- A G2 V normal star. -/
def g2v : StellarClass := ⟨NormalStar, Spectral_G, 2, Lum_V⟩

/-- The all-zero ephemeris, used only as the default of Option.getD. -/
def ephZero : JPLEphemeris :=
  { DENum := 0, startDate := 0, endDate := 0, daysPerInterval := 0,
    au := 0, earthMoonMassRatio := 0, coeffInfo := fun _ => ⟨0, 0, 0⟩,
    librationCoeffInfo := ⟨0, 0, 0⟩, recordSize := 0, records := [],
    swapBytes := false }

/-- A DE405 header whose Mercury descriptor violates the nCoeffs bound
(33 > 32) while the loader succeeds: zero records are needed because
endDate = startDate. -/
def fhViol : JPLEFileHeader :=
  { startDate := 0, endDate := 0, daysPerInterval := 1, nConstants := 0,
    au := 1, earthMoonMassRatio := 81,
    coeffInfo := fun i => if (i : Nat) = 0 then ⟨3, 33, 1⟩ else ⟨3, 0, 1⟩,
    deNum := 405, librationCoeffInfo := ⟨3, 0, 1⟩, inpopRecordSize := 0 }

/-- The ephemeris the loader returns for fhViol. -/
def ephViol : JPLEphemeris := (load fhViol []).getD ephZero

/-- A DE405 header all of whose descriptors satisfy the asserted bounds. -/
def fhOk : JPLEFileHeader :=
  { startDate := 0, endDate := 0, daysPerInterval := 1, nConstants := 0,
    au := 1, earthMoonMassRatio := 81,
    coeffInfo := fun _ => ⟨3, 32, 1⟩,
    deNum := 405, librationCoeffInfo := ⟨3, 0, 1⟩, inpopRecordSize := 0 }

/-- The ephemeris the loader returns for fhOk. -/
def ephOk : JPLEphemeris := (load fhOk []).getD ephZero

/-- A header whose deNum (0) matches none of the endianness rules. -/
def fhUnrec : JPLEFileHeader :=
  { startDate := 0, endDate := 0, daysPerInterval := 1, nConstants := 0,
    au := 1, earthMoonMassRatio := 81,
    coeffInfo := fun _ => ⟨3, 0, 1⟩,
    deNum := 0, librationCoeffInfo := ⟨3, 0, 1⟩, inpopRecordSize := 0 }

/-- A small loaded ephemeris: one record covering [0, 32], two Chebyshev
coefficients per component, single-granule sentinel. -/
def eph1 : JPLEphemeris :=
  { DENum := 405, startDate := 0, endDate := 32, daysPerInterval := 32,
    au := 1, earthMoonMassRatio := 81,
    coeffInfo := fun _ => ⟨0, 2, granuleSentinel⟩,
    librationCoeffInfo := ⟨0, 0, 0⟩, recordSize := 8,
    records := [⟨0, 32, [1, 2, 3, 4, 5, 6, 7, 8]⟩], swapBytes := false }

/-! ## Theorems -/

/-- C1: the claim fails on the code.  packV2 shifts the star type left by
18, past the 16-bit result, so the representable white dwarf (DA, 0,
Lum_Unknown) packs to 4104 and unpackV2 succeeds but returns the normal
star (NormalStar, C, 0, Lum_Unknown): the round trip does not preserve
the starType and specClass fields. -/
theorem thm_C1 :
    packV2 wdDA0 = 4104 ∧
    unpackV2 4104 = some ⟨NormalStar, Spectral_C, 0, Lum_Unknown⟩ ∧
    unpackV2 (packV2 wdDA0) ≠ some wdDA0 := by decide

/-- C2: the claim fails on the code.  packV1 stores the star type at bits
15..12 but unpackV1 reads `st >>> 13`, so the white dwarf (DA, 0,
Lum_Unknown) — a star type representable in V1, spectral class not Y —
packs to 4104 and unpacks as the normal star (NormalStar, O, 0,
Lum_Unknown). -/
theorem thm_C2 :
    packV1 wdDA0 = 4104 ∧
    unpackV1 4104 = some ⟨NormalStar, Spectral_O, 0, Lum_Unknown⟩ ∧
    unpackV1 (packV1 wdDA0) ≠ some wdDA0 := by decide

/-- C3: the claim fails on the code.  The white-dwarf and neutron-star
branches of str() fall through to `return "X"` after unchecked character
lookups that index out of bounds for every real white-dwarf or
neutron-star spectral ordinal, so the renderer never produces
`WD<digit>` or `Q<digit>`; in the total embedding those branches fault
(none).  A black hole does render as "X". -/
theorem thm_C3 :
    str wdDA5 = none ∧ str nsQ5 = none ∧
    str ⟨BlackHole, Spectral_Unknown, Subclass_Unknown, Lum_Unknown⟩ = some ['X'] := by
  decide

/-- C4 counterexample: for the NormalStar value G2 V (subclass 2, not the
Unknown sentinel) the canonical render is "G2 V" and parsing it back
yields luminosity Unknown, not Lum_V — the parser stops at the space
that precedes every luminosity suffix. -/
theorem cex_C4 :
    str g2v = some ['G', '2', ' ', 'V'] ∧
    (str g2v).bind parse = some ⟨NormalStar, Spectral_G, 2, Lum_Unknown⟩ ∧
    (str g2v).bind parse ≠ some g2v := by decide

/-- C4 amended: for every NormalStar whose spectral ordinal is within the
renderer's letter table (at most 16) and is neither WN (whose letter
collides with WC) nor Unknown (rendered as the terminating question
mark), whose subclass is a digit (at most 9), and whose luminosity class
is Unknown (so that no space-prefixed suffix is emitted), parsing the
render returns the star unchanged in all four fields. -/
theorem thm_C4 :
    ∀ sp : Nat, sp ≤ 16 → sp ≠ Spectral_WN → sp ≠ Spectral_Unknown →
      ∀ sub : Nat, sub ≤ 9 →
        (str ⟨NormalStar, sp, sub, Lum_Unknown⟩).bind parse =
          some ⟨NormalStar, sp, sub, Lum_Unknown⟩ := by decide

/-- C4 witness: the amended claim at the concrete star G2 with unknown
luminosity. -/
theorem w_C4 :
    (str ⟨NormalStar, Spectral_G, 2, Lum_Unknown⟩).bind parse =
      some ⟨NormalStar, Spectral_G, 2, Lum_Unknown⟩ :=
  thm_C4 Spectral_G (by decide) (by decide) (by decide) 2 (by decide)

/-- Every state has rank at most 5. -/
theorem rank_le_five (s : ParseState) : rank s ≤ 5 := by
  cases s <;> decide

/-- Moving the progress property through one if of a step branch. -/
theorem iteRank (P : Prop) [Decidable P] (a b : ParseState × Bool × StellarClass)
    (s : ParseState)
    (ha : a.2.1 = true ∨ rank a.1 < rank s)
    (hb : b.2.1 = true ∨ rank b.1 < rank s) :
    (if P then a else b).2.1 = true ∨ rank (if P then a else b).1 < rank s := by
  by_cases h : P
  · rwa [if_pos h]
  · rwa [if_neg h]

/-- Progress: from any state other than End, one step either consumes a
character or strictly lowers the rank. -/
theorem stepProgress (s : ParseState) (c : Char) (acc : StellarClass)
    (hs : s ≠ ParseState.End) :
    (step s c acc).2.1 = true ∨ rank (step s c acc).1 < rank s := by
  cases s
  case End => exact absurd rfl hs
  all_goals simp only [step]
  all_goals
    repeat
      first
        | exact Or.inl rfl
        | apply iteRank
        | simp [rank]

/-- Moving control-equality through one if of a step branch. -/
theorem iteCtrl (P : Prop) [Decidable P] (a b a2 b2 : ParseState × Bool × StellarClass)
    (ha : a.1 = a2.1 ∧ a.2.1 = a2.2.1) (hb : b.1 = b2.1 ∧ b.2.1 = b2.2.1) :
    (if P then a else b).1 = (if P then a2 else b2).1 ∧
    (if P then a else b).2.1 = (if P then a2 else b2).2.1 := by
  by_cases h : P
  · rw [if_pos h, if_pos h]; exact ha
  · rw [if_neg h, if_neg h]; exact hb

/-- The next state and the consumption flag of a step do not depend on
the accumulated fields. -/
theorem step_control (s : ParseState) (c : Char) (acc acc2 : StellarClass) :
    (step s c acc).1 = (step s c acc2).1 ∧ (step s c acc).2.1 = (step s c acc2).2.1 := by
  cases s
  all_goals simp only [step]
  all_goals
    repeat
      first
        | exact ⟨rfl, rfl⟩
        | exact ⟨trivial, trivial⟩
        | apply iteCtrl

/-- A step that consumes the synthetic NUL character moves to End. -/
theorem stepNulConsumeEnd (s : ParseState) (acc : StellarClass)
    (h : (step s (Char.ofNat 0) acc).2.1 = true) :
    (step s (Char.ofNat 0) acc).1 = ParseState.End := by
  have hc1 := (step_control s (Char.ofNat 0) acc parseInit).1
  have hc2 := (step_control s (Char.ofNat 0) acc parseInit).2
  rw [hc2] at h
  rw [hc1]
  revert h
  cases s <;> decide

/-- Sufficiency of the fuel: if the measure is at most the fuel, the
parse loop reaches End. -/
theorem parseRun_isSome (l : List Char) :
    ∀ (fuel : Nat) (s : ParseState) (i : Nat) (acc : StellarClass),
      parseMeasure l s i ≤ fuel → (parseRun l fuel s i acc).isSome := by
  intro fuel
  induction fuel with
  | zero =>
    intro s i acc h
    unfold parseMeasure at h
    have hs : s = ParseState.End := by
      by_contra hne
      have h1 : 1 ≤ rank s := by
        cases s <;> first | exact absurd rfl hne | decide
      omega
    subst hs
    simp [parseRun]
  | succ n ih =>
    intro s i acc h
    by_cases hs : s = ParseState.End
    · subst hs; simp [parseRun]
    · have hstep : parseRun l (n + 1) s i acc =
          parseRun l n (step s (l.getD i (Char.ofNat 0)) acc).1
            (if (step s (l.getD i (Char.ofNat 0)) acc).2.1 then i + 1 else i)
            (step s (l.getD i (Char.ofNat 0)) acc).2.2 := by
        simp [parseRun, hs]
      rw [hstep]
      set c := l.getD i (Char.ofNat 0) with hc
      cases hcons : (step s c acc).2.1 with
      | false =>
        simp only [Bool.false_eq_true, if_false]
        apply ih
        have hpr := stepProgress s c acc hs
        rw [hcons] at hpr
        have hlt : rank (step s c acc).1 < rank s := by
          rcases hpr with h1 | h2
          · exact absurd h1 (by decide)
          · exact h2
        unfold parseMeasure at h ⊢
        omega
      | true =>
        simp only [if_true]
        apply ih
        by_cases hi : i ≤ l.length
        · have hr5 := rank_le_five (step s c acc).1
          unfold parseMeasure at h ⊢
          omega
        · have hc0 : c = Char.ofNat 0 := by
            rw [hc]
            exact List.getD_eq_default l (Char.ofNat 0) (by omega)
          have hend : (step s c acc).1 = ParseState.End := by
            rw [hc0] at hcons ⊢
            exact stepNulConsumeEnd s acc hcons
          rw [hend]
          unfold parseMeasure
          have hre : rank ParseState.End = 0 := rfl
          omega

/-- C9: parsing always terminates with a StellarClass — the fuelled loop
always reaches the End state (first conjunct), because from every state
other than End a step either consumes a character or moves strictly down
the rank order toward End (second conjunct, the claim's stated
justification); fields the input never determines stay at the Unknown
sentinels of the initial accumulator. -/
theorem thm_C9 :
    (∀ l : List Char, (parse l).isSome) ∧
    (∀ (s : ParseState) (c : Char) (acc : StellarClass), s ≠ ParseState.End →
      (step s c acc).2.1 = true ∨ rank (step s c acc).1 < rank s) := by
  constructor
  · intro l
    apply parseRun_isSome
    have h5 : rank ParseState.Begin = 5 := rfl
    unfold parseMeasure parseFuel
    omega
  · exact fun s c acc hs => stepProgress s c acc hs

/-- C9 witness: the parser terminates on "G2", and the progress property
at the Begin state on the character G. -/
theorem w_C9 :
    (parse ['G', '2']).isSome ∧
    ((step ParseState.Begin 'G' parseInit).2.1 = true ∨
      rank (step ParseState.Begin 'G' parseInit).1 < rank ParseState.Begin) :=
  ⟨thm_C9.1 ['G', '2'],
   thm_C9.2 ParseState.Begin 'G' parseInit (by decide)⟩

/-- charAt succeeds exactly on indices below the list length. -/
theorem charAt_isSome (l : List Char) (n : Nat) :
    (charAt l n).isSome = true ↔ n < l.length := by
  unfold charAt
  constructor
  · intro hs
    by_contra hn
    rw [List.get?_eq_none.mpr (by omega)] at hs
    exact Bool.false_ne_true hs
  · intro h
    rw [List.get?_eq_get h]
    rfl

/-- C10 counterexample: the digit literal of str() is an 11-byte array,
so the lookup at the Subclass_Unknown sentinel (index 10) is an
in-bounds read of the NUL terminator — refuting both that the lookup is
in bounds only for subclass at most 9 and that the sentinel read is out
of bounds. -/
theorem cex_C10 :
    (charAt digitChars Subclass_Unknown).isSome = true ∧
    charAt digitChars Subclass_Unknown = some (Char.ofNat 0) ∧
    ¬Subclass_Unknown ≤ 9 := by decide

/-- C10 amended: the unchecked digit lookup of str() indexes the 11-byte
literal "0123456789" (ten digits plus the NUL terminator): it is in
bounds exactly when subclass is at most 10 (first conjunct), and the
character it reads is a decimal digit exactly when subclass is at most 9
(second conjunct).  A subclass at the Unknown sentinel therefore reads
the in-bounds terminator, and a NormalStar renders with an embedded NUL
character in place of the subclass digit (third conjunct); only subclass
11 and beyond reads out of bounds, and digit-correct rendering requires
subclass at most 9. -/
theorem thm_C10 :
    (∀ n : Nat, (charAt digitChars n).isSome = true ↔ n ≤ 10) ∧
    (∀ (n : Nat) (ch : Char), charAt digitChars n = some ch →
      (isDigitChar ch = true ↔ n ≤ 9)) ∧
    (∀ c : StellarClass, c.starType = NormalStar → c.subclass = Subclass_Unknown →
      str c = (charAt normalChars c.specClass).map
        (fun s0 => s0 :: Char.ofNat 0 :: lumSuffix c.lumClass)) := by
  refine ⟨?_, ?_, ?_⟩
  · intro n
    rw [charAt_isSome]
    show n < 11 ↔ n ≤ 10
    omega
  · intro n ch h
    have h11 : n < 11 := by
      have hn := (charAt_isSome digitChars n).mp (by rw [h]; rfl)
      exact hn
    interval_cases n <;>
      (obtain rfl := Option.some.inj h; decide)
  · intro c hst hsub
    have hdig : charAt digitChars c.subclass = some (Char.ofNat 0) := by
      rw [hsub]; rfl
    unfold str
    rw [hst]
    norm_num [NormalStar, WhiteDwarf, NeutronStar, BlackHole]
    rw [hdig]
    cases charAt normalChars c.specClass <;> rfl

/-- C10 witness: the render of a G-class normal star with Unknown
subclass carries the NUL terminator where the digit belongs. -/
theorem w_C10 :
    str ⟨NormalStar, Spectral_G, Subclass_Unknown, Lum_Unknown⟩ =
      (charAt normalChars Spectral_G).map
        (fun s0 => s0 :: Char.ofNat 0 :: lumSuffix Lum_Unknown) :=
  thm_C10.2.2 ⟨NormalStar, Spectral_G, Subclass_Unknown, Lum_Unknown⟩ rfl rfl

/-- Adding back the subtracted vector restores the original. -/
theorem vecSubAddCancel (a b : Vec3) : Vec3.add (Vec3.sub a b) b = a := by
  obtain ⟨ax, ay, az⟩ := a
  obtain ⟨bx, by0, bz⟩ := b
  simp only [Vec3.add, Vec3.sub, Vec3.mk.injEq]
  refine ⟨by ring, by ring, by ring⟩

/-- C7: for every ephemeris and time, the derived Earth position plus the
scaled geocentric Moon position equals the Earth-Moon barycenter
position exactly — the code computes Earth as the barycenter minus the
scaled Moon vector, and the arithmetic of the model is exact. -/
theorem thm_C7 (eph : JPLEphemeris) (t : ℚ) :
    Vec3.add (getPlanetPosition eph JPLEphemItem.Earth t)
      (Vec3.smul (1 / (eph.earthMoonMassRatio + 1))
        (getPlanetPosition eph JPLEphemItem.Moon t)) =
    getPlanetPosition eph JPLEphemItem.EarthMoonBary t := by
  simp only [getPlanetPosition]
  exact vecSubAddCancel _ _

/-- A time already inside the span is left unchanged by the clamp. -/
theorem clampTime_of_mem (eph : JPLEphemeris) (t : ℚ)
    (h1 : eph.startDate ≤ t) (h2 : t ≤ eph.endDate) : clampTime eph t = t := by
  unfold clampTime
  rw [if_neg (not_lt.mpr h1), if_neg (not_lt.mpr h2)]

/-- The clamp lands inside the span. -/
theorem clampTime_mem (eph : JPLEphemeris) (h : eph.startDate ≤ eph.endDate) (t : ℚ) :
    eph.startDate ≤ clampTime eph t ∧ clampTime eph t ≤ eph.endDate := by
  unfold clampTime
  split_ifs with h1 h2
  · exact ⟨le_refl _, h⟩
  · exact ⟨h, le_refl _⟩
  · exact ⟨not_lt.mp h1, not_lt.mp h2⟩

/-- Clamping is idempotent on a nonempty span. -/
theorem clampTime_idem (eph : JPLEphemeris) (h : eph.startDate ≤ eph.endDate) (t : ℚ) :
    clampTime eph (clampTime eph t) = clampTime eph t :=
  clampTime_of_mem eph _ (clampTime_mem eph h t).1 (clampTime_mem eph h t).2

/-- C8: on an ephemeris whose span is nonempty and which holds at least
one record — as every file covering [startDate, endDate] does — a query
for a stored body at any Julian date equals the query at the date
clamped to [startDate, endDate], and the selected record number stays
below records.size(); the query is total. -/
theorem thm_C8 (eph : JPLEphemeris) (h1 : eph.startDate ≤ eph.endDate)
    (h2 : 0 < eph.records.length) (b : JPLEphemItem) (hb : b.isStored = true)
    (tjd : ℚ) :
    getPlanetPosition eph b tjd = getPlanetPosition eph b (clampTime eph tjd) ∧
    recNoSel eph tjd < eph.records.length := by
  constructor
  · have hcl : clampTime eph (clampTime eph tjd) = clampTime eph tjd :=
      clampTime_idem eph h1 tjd
    cases b <;> simp only [JPLEphemItem.isStored] at hb <;>
      simp [getPlanetPosition, positionStored, hcl]
  · unfold recNoSel recNoOf
    dsimp only
    split_ifs with hge
    · omega
    · omega

/-- C8 witness: the concrete one-record ephemeris at the out-of-range
time 40 (clamped to the end date 32). -/
theorem w_C8 :
    eph1.startDate ≤ eph1.endDate ∧ 0 < eph1.records.length ∧
    (getPlanetPosition eph1 JPLEphemItem.Mercury 40 =
       getPlanetPosition eph1 JPLEphemItem.Mercury (clampTime eph1 40) ∧
     recNoSel eph1 40 < eph1.records.length) :=
  ⟨by norm_num [eph1], by decide,
   thm_C8 eph1 (by norm_num [eph1]) (by decide) JPLEphemItem.Mercury rfl 40⟩

/-- An option that is some of its own default extraction. -/
theorem optionEqSomeGetD {α : Type} (o : Option α) (d : α) (h : o.isSome = true) :
    o = some (o.getD d) := by
  cases o with
  | none => simp at h
  | some a => rfl

/-- The loader copies every coefficient descriptor verbatim from the
header, adjusting only the offset (1-based over the record, minus 3 with
uint32 wraparound). -/
theorem load_coeffInfo (fh : JPLEFileHeader) (s : List ℚ) (e : JPLEphemeris)
    (hload : load fh s = some e) (i : Fin 12) :
    e.coeffInfo i = ⟨((fh.coeffInfo i).offset + 4294967293) % 4294967296,
      (fh.coeffInfo i).nCoeffs, (fh.coeffInfo i).nGranules⟩ := by
  unfold load at hload
  split at hload
  · exact absurd hload (by simp)
  · dsimp only at hload
    split at hload
    · exact absurd hload (by simp)
    · obtain rfl : _ = e := Option.some.inj hload
      rfl

/-- C5 counterexample: the loader accepts a header whose Mercury
descriptor has nCoeffs = 33, violating the bound the claim says load
verifies — load returns an ephemeris whose descriptor still carries the
violating values. -/
theorem cex_C5 :
    (load fhViol []).isSome = true ∧
    32 < (ephViol.coeffInfo 0).nCoeffs ∧ 1 ≤ (ephViol.coeffInfo 0).nGranules := by
  have hsome : (load fhViol []).isSome = true := by
    unfold load
    rw [show detectByteOrder fhViol.deNum = some (false, 405) from by decide]
    show (match readRecords _ (ratToUInt ((fhViol.endDate - fhViol.startDate) /
      fhViol.daysPerInterval)) [] with
      | none => none
      | some recs => some _).isSome = true
    rw [show ratToUInt ((fhViol.endDate - fhViol.startDate) / fhViol.daysPerInterval) = 0
      from by norm_num [fhViol, ratToUInt, ratTrunc]]
    rfl
  have hload : load fhViol [] = some ephViol := optionEqSomeGetD _ _ hsome
  refine ⟨hsome, ?_, ?_⟩
  · rw [load_coeffInfo fhViol [] ephViol hload 0]
    decide
  · rw [load_coeffInfo fhViol [] ephViol hload 0]
    decide

/-- C5 amended: load performs no validation of nCoeffs or nGranules; it
copies the descriptors verbatim, so the bounds asserted before
interpolation hold for a loaded ephemeris exactly when the file header
already satisfies them: if every header descriptor has nCoeffs at most
32 and nGranules at least 1, so does every descriptor of the returned
ephemeris. -/
theorem thm_C5 (fh : JPLEFileHeader) (s : List ℚ) (e : JPLEphemeris)
    (hload : load fh s = some e)
    (hok : ∀ i : Fin 12, (fh.coeffInfo i).nCoeffs ≤ 32 ∧ 1 ≤ (fh.coeffInfo i).nGranules) :
    ∀ i : Fin 12, (e.coeffInfo i).nCoeffs ≤ 32 ∧ 1 ≤ (e.coeffInfo i).nGranules := by
  intro i
  rw [load_coeffInfo fh s e hload i]
  exact hok i

/-- C5 witness: a header satisfying the bounds loads to an ephemeris
satisfying them (checked on the Mercury descriptor). -/
theorem w_C5 :
    (ephOk.coeffInfo 0).nCoeffs ≤ 32 ∧ 1 ≤ (ephOk.coeffInfo 0).nGranules := by
  have hsome : (load fhOk []).isSome = true := by
    unfold load
    rw [show detectByteOrder fhOk.deNum = some (false, 405) from by decide]
    show (match readRecords _ (ratToUInt ((fhOk.endDate - fhOk.startDate) /
      fhOk.daysPerInterval)) [] with
      | none => none
      | some recs => some _).isSome = true
    rw [show ratToUInt ((fhOk.endDate - fhOk.startDate) / fhOk.daysPerInterval) = 0
      from by norm_num [fhOk, ratToUInt, ratTrunc]]
    rfl
  exact thm_C5 fhOk [] ephOk (optionEqSomeGetD _ _ hsome) (by decide) 0

/-- C6: the endianness decision implements exactly the claimed rule
cascade (first conjunct compares the implementation with a definition
transcribed from the claim), and when no rule matches, load returns no
ephemeris (second conjunct). -/
theorem thm_C6 :
    (∀ deNum : Nat, detectByteOrder deNum = detectByteOrderSpec deNum) ∧
    (∀ (fh : JPLEFileHeader) (s : List ℚ),
      detectByteOrder fh.deNum = none → load fh s = none) := by
  constructor
  · intro n
    rfl
  · intro fh s h
    unfold load
    rw [h]

/-- C6 witness: a header with deNum 0 matches no rule and load fails. -/
theorem w_C6 : load fhUnrec [] = none :=
  thm_C6.2 fhUnrec [] (by decide)

end Celestia
